import Mathlib

/-!
Verification of the `cartoframes` `Dataset` subsystem (`cartoframes/datasets.py`).

The remote services (SQL client, batch SQL client, copy client) and the
`shapely` geometry library are external collaborators; they enter the
embedding as explicit function parameters.  Dataframe cell values are
modelled by the inductive type `Val`; Python exceptions by `PyErr`
(Lean `Except` plays the role of raise/return).
-/

namespace Cartoframes

/-- A decoded geometry object, as produced by the shapely library: a
`geom_type` tag (e.g. "Point") and a well-known-text serialization
(e.g. "POINT(1 2)"). -/
structure Geom where
  geom_type : String
  wkt : String
deriving DecidableEq, Repr

/-- A dataframe cell value.  `Val.null` models a null/missing cell
(Python `None`/`NaN`); `Val.geom` models a value that already carries
geometry-type metadata (`hasattr` probing for `geom_type` in the source). -/
inductive Val where
  | null
  | str (s : String)
  | int (n : Int)
  | geom (g : Geom)
deriving DecidableEq, Repr

/-- Python exception classes raised by the subsystem. -/
inductive PyErr where
  | valueError (msg : String)
  | nameError (msg : String)
  | cartoError (msg : String)
  | importError (msg : String)
deriving DecidableEq, Repr

/-- Python `pd.isnull(val) or val is None` on a cell value. -/
def isNullVal : Val → Bool
  | .null => true
  | _ => false

/-- Python truthiness of a cell value (`if ewkb:` in `_decode_geom`). -/
def pyTruthy : Val → Bool
  | .null => false
  | .str s => !s.isEmpty
  | .int n => n != 0
  | .geom _ => true

/-- Python string formatting (`str`) of a cell value (a shapely
geometry prints as its WKT). -/
def showVal : Val → String
  | .null => "None"
  | .str s => s
  | .int n => toString n
  | .geom g => g.wkt

/-- The five shapely-backed parse attempts of `_decode_geom`, abstract
because shapely is an external collaborator.  A returned `none` models
the attempt raising (each `except Exception` falls through):
`unhex_wkb`  = `wkb.loads(ba.unhexlify(ewkb))`,
`unhex_wkb_hex` = `wkb.loads(ba.unhexlify(ewkb), hex=True)`,
`wkb_hex`    = `wkb.loads(ewkb, hex=True)`,
`wkb_raw`    = `wkb.loads(ewkb)`,
`wkt_`       = `wkt.loads(ewkb)`. -/
structure DecodeAttempts where
  unhex_wkb : Val → Option Geom
  unhex_wkb_hex : Val → Option Geom
  wkb_hex : Val → Option Geom
  wkb_raw : Val → Option Geom
  wkt_ : Val → Option Geom

/-- The nested try/except chain of `_decode_geom` in source order:
first success wins, all failures fall through to the next. -/
def decodeChain (A : DecodeAttempts) (v : Val) : Option Geom :=
  match A.unhex_wkb v with
  | some g => some g
  | none =>
    match A.unhex_wkb_hex v with
    | some g => some g
    | none =>
      match A.wkb_hex v with
      | some g => some g
      | none =>
        match A.wkb_raw v with
        | some g => some g
        | none => A.wkt_ v

/-- Body of `_decode_geom` (before the decorator), with shapely present:
pass through a structured geometry unchanged; a falsy input or a chain
where every attempt fails yields `none`. -/
def _decode_geom_pure (A : DecodeAttempts) (v : Val) : Option Geom :=
  match v with
  | .geom g => some g
  | v' => if pyTruthy v' then decodeChain A v' else none

/-- Body of `_decode_geom`: the `hasattr` pass-through for structured geometries
happens before `from shapely import wkb`, so it succeeds even when
shapely is missing (`avail = false`); after that point a missing shapely
raises `ImportError importMsg`. -/
def _decode_geom_inner (avail : Bool) (importMsg : String) (A : DecodeAttempts)
    (v : Val) : Except PyErr (Option Geom) :=
  match v with
  | .geom g => .ok (some g)
  | v' =>
    if avail then .ok (if pyTruthy v' then decodeChain A v' else none)
    else .error (.importError importMsg)

/-- Message built by `_encode_decode_decorator` around the original
`ImportError` text. -/
def shapelyImportMsg (err : String) : String :=
  "The Python package `shapely` needs to be installed to encode or decode geometries. (" ++ err ++ ")"

/-- Function `_decode_geom` as decorated by `_encode_decode_decorator`: an
`ImportError` is re-raised with the message naming shapely; everything
else passes through. -/
def _decode_geom (avail : Bool) (importMsg : String) (A : DecodeAttempts)
    (v : Val) : Except PyErr (Option Geom) :=
  match _decode_geom_inner avail importMsg A v with
  | .ok r => .ok r
  | .error (.importError e) => .error (.importError (shapelyImportMsg e))
  | .error e => .error e

/-- Modelled from the spec: the reserved geometry-name column set
(`Column.SUPPORTED_GEOM_COL_NAMES` lives in `cartoframes/columns.py`,
which is not part of the provided sources).  The spec describes it as
the set of reserved geometry-name columns skipped in lon/lat mode
("the_geom" and similar lowercase geometry names). -/
def SUPPORTED_GEOM_COL_NAMES : List String := ["geom", "the_geom", "geometry"]

/-- The per-column loop of `Dataset._rows`.  State is
`(csv_row, the_geom_val, lng_val, lat_val)`; the three trackers model
the Python locals initialised to `None` (a stored `some .null` is a
cell whose value was null). -/
def rowLoop (row : String → Val) (wl : Option (String × String)) (gcol : Option String) :
    List String → String × Option Val × Option Val × Option Val →
      String × Option Val × Option Val × Option Val
  | [], st => st
  | col :: rest, (csv, tg, lg, lt) =>
    if wl.isSome && col ∈ SUPPORTED_GEOM_COL_NAMES then
      rowLoop row wl gcol rest (csv, tg, lg, lt)
    else
      let rawVal := row col
      let valStr := if isNullVal rawVal then "" else showVal rawVal
      let lg' := match wl with
        | some p => if col = p.1 then some rawVal else lg
        | none => lg
      let lt' := match wl with
        | some p => if col = p.2 then some rawVal else lt
        | none => lt
      if some col = gcol then
        rowLoop row wl gcol rest (csv, some rawVal, lg', lt')
      else
        rowLoop row wl gcol rest (csv ++ valStr ++ "|", tg, lg', lt')

/-- Python `x is not None` on a tracked value (`some .null` is a null cell,
which is not Python `None` only when it came from a genuine value; we
model both `None` and `NaN` cells by `.null`, and in either case the
source appends nothing: `None` skips the decode, `NaN` is decoded by
shapely to nothing). -/
def notNoneVal : Option Val → Bool
  | some v => !isNullVal v
  | none => false

/-- One line of `Dataset._rows` (before `.encode()`): the per-column
loop, then the decoded-geometry field, then the synthesized lon/lat
point, then the newline. -/
def serializeRow (A : DecodeAttempts) (cols : List String) (row : String → Val)
    (wl : Option (String × String)) (gcol : Option String) : String :=
  let st := rowLoop row wl gcol cols ("", none, none, none)
  let csv := st.1
  let csv :=
    match st.2.1 with
    | some v =>
      if isNullVal v then csv
      else
        match _decode_geom_pure A v with
        | some g => csv ++ "SRID=4326;" ++ g.wkt
        | none => csv
    | none => csv
  let csv :=
    if wl.isSome && notNoneVal st.2.2.1 && notNoneVal st.2.2.2 then
      csv ++ "SRID=4326;POINT(" ++ showVal ((st.2.2.1).getD .null) ++ " "
          ++ showVal ((st.2.2.2).getD .null) ++ ")"
    else csv
  csv ++ "\n"

/-- Generator `Dataset._rows`: one encoded byte line per dataframe row
(`csv_row.encode()` is UTF-8 encoding). -/
def Dataset_rows (A : DecodeAttempts) (df : List (String → Val)) (cols : List String)
    (wl : Option (String × String)) (gcol : Option String) : List ByteArray :=
  df.map fun row => (serializeRow A cols row wl gcol).toUTF8

/-- The probe query of `Dataset.exists`. -/
def existsQuery (table_name : String) : String :=
  "EXPLAIN SELECT * FROM \"" ++ table_name ++ "\""

/-- Method `Dataset.exists`: send the probe through the non-batch SQL client
(`send : query → Except CartoException-message result`); a success
returns `true`; any `CartoException` is debug-logged (second component)
and yields `false`.  The function is total: it never raises. -/
def Dataset_exists (send : String → Except String Unit) (table_name : String) :
    Bool × Option String :=
  match send (existsQuery table_name) with
  | .ok _ => (true, none)
  | .error err => (false, some err)

/-- Result of `batch_sql_client.create_and_wait_for_completion`. -/
structure BatchJob where
  status : String
  failed_reason : String
deriving DecidableEq, Repr

/-- The status check at the end of `Dataset._create_table`:
a status other than `done` raises a `CartoException` carrying the failure reason. -/
def createResult (job : BatchJob) : Except PyErr Unit :=
  if job.status ≠ "done" then
    .error (.cartoError ("Cannot create table: " ++ job.failed_reason ++ "."))
  else .ok ()

/-- Method `Dataset._create_table`: submit the single `BEGIN; ...; COMMIT;`
batch (`batch` is the batch SQL client) and check the job status.  The
first component records every batch submission made. -/
def _create_table (batch : String → BatchJob) (batchSql : String) :
    List String × Except PyErr Unit :=
  ([batchSql], createResult (batch batchSql))

/-- Remote calls made by `Dataset.upload`. -/
inductive UAction where
  | probeExists
  | createTable
  | copyFrom
deriving DecidableEq, Repr

/-- The `NameError` message of `Dataset.upload` on an existing table
under the `fail` policy. -/
def alreadyExistsMsg (table_name : String) : String :=
  "Table with name " ++ table_name ++ " already exists in CARTO." ++
  " Please choose a different `table_name` or use" ++
  " if_exists=\"replace\" to overwrite it"

/-- The `ValueError` message of `Dataset.upload` without a dataframe. -/
def uploadNoDfMsg : String :=
  "You have to create a `Dataset` with a pandas DataFrame in order to upload it to CARTO"

/-- Control flow of `Dataset.upload`.  `hasDf` is whether a source
dataframe is bound, `tableExists` the result of the `exists()` probe,
`job` the batch job result of any `_create_table` call.  Returns the
trace of remote calls and the outcome. -/
def uploadSim (hasDf : Bool) (tableExists : Bool) (job : BatchJob)
    (if_exists : String) (table_name : String) :
    List UAction × Except PyErr Unit :=
  if !hasDf then ([], .error (.valueError uploadNoDfMsg))
  else if !tableExists then
    match createResult job with
    | .error e => ([.probeExists, .createTable], .error e)
    | .ok _ => ([.probeExists, .createTable, .copyFrom], .ok ())
  else if if_exists = "fail" then
    ([.probeExists], .error (.nameError (alreadyExistsMsg table_name)))
  else if if_exists = "replace" then
    match createResult job with
    | .error e => ([.probeExists, .createTable], .error e)
    | .ok _ => ([.probeExists, .createTable, .copyFrom], .ok ())
  else ([.probeExists, .copyFrom], .ok ())

/-- Mapping `_dtypes2pg`: the fixed dtype-to-PostgreSQL-type mapping, with
`text` for anything unrecognized. -/
def _dtypes2pg (dtype : String) : String :=
  if dtype = "float64" then "numeric"
  else if dtype = "int64" then "integer"
  else if dtype = "float32" then "numeric"
  else if dtype = "int32" then "integer"
  else if dtype = "object" then "text"
  else if dtype = "bool" then "boolean"
  else if dtype = "datetime64[ns]" then "timestamp"
  else if dtype = "datetime64[ns, UTC]" then "timestamp"
  else "text"

/-- Query builder `Dataset._create_table_query`.  `normalized` is the
`(normalized, original)` column mapping in dataframe order, `dtypeOf`
the `dtypes` lookup of the dataframe (by original name), `detectedGeomType`
the result of `_get_geom_col_type(self.df)` (shapely-backed geometry
detection, `none` when no geometry type is determined). -/
def _create_table_query (table_name : String) (normalized : List (String × String))
    (dtypeOf : String → String) (detectedGeomType : Option String)
    (wl : Option (String × String)) : String :=
  let geom_type : Option String :=
    match wl with
    | none => detectedGeomType
    | some _ => some "Point"
  let cols := String.intercalate ", "
    (normalized.map fun p => p.1 ++ " " ++ _dtypes2pg (dtypeOf p.2))
  let cols :=
    match geom_type with
    | some t => cols ++ ", the_geom geometry(" ++ t ++ ", 4326)"
    | none => cols
  "CREATE TABLE " ++ table_name ++ " (" ++ cols ++ ")"

/-- The value passed as `limit`: a Python int or some non-int value. -/
inductive LimitArg where
  | intVal (n : Int)
  | nonInt
deriving DecidableEq, Repr

/-- A remote column descriptor (name, database type). -/
structure TableColumn where
  name : String
  pgtype : String
deriving DecidableEq, Repr

/-- Method `Dataset._get_read_query`: select every introspected column except
`the_geom_webmercator`, append ` LIMIT n` for a non-negative integer
limit, and raise `ValueError` for a negative or non-integer limit. -/
def _get_read_query (table_name schema : String) (table_columns : List TableColumn)
    (limit : Option LimitArg) : Except PyErr String :=
  let query_columns := (table_columns.filter fun c => c.name ≠ "the_geom_webmercator").map
    fun c => c.name
  let query := "SELECT " ++ String.intercalate ", " query_columns ++ " FROM \"" ++
    schema ++ "\".\"" ++ table_name ++ "\""
  match limit with
  | none => .ok query
  | some (.intVal n) =>
    if n ≥ 0 then .ok (query ++ " LIMIT " ++ toString n)
    else .error (.valueError "`limit` parameter must an integer >= 0")
  | some .nonInt => .error (.valueError "`limit` parameter must an integer >= 0")

/-- Remote calls made by `Dataset.download`. -/
inductive DAction where
  | introspectColumns
  | fetch (query : String)
deriving DecidableEq, Repr

/-- Method `Dataset.download`: introspect the table columns, build the read
query, then fetch.  Returns the trace of remote calls and the
outcome. -/
def downloadSim (table_name schema : String) (table_columns : List TableColumn)
    (limit : Option LimitArg) : List DAction × Except PyErr Unit :=
  match _get_read_query table_name schema table_columns limit with
  | .ok query => ([.introspectColumns, .fetch query], .ok ())
  | .error e => ([.introspectColumns], .error e)

/-- Method `Dataset.get_table_columns`: the `information_schema.columns`
catalog query either succeeds (`catalog = .ok columns`) or raises a
`CartoException` whose message is matched against the exact string
the literal text `Access denied`; only that message triggers the zero-row-probe
fallback (`fallback`), any other `CartoException` falls off the end of
the function, returning Python `None`. -/
def get_table_columns (catalog : Except String (List TableColumn))
    (fallback : List TableColumn) : Option (List TableColumn) :=
  match catalog with
  | .ok cs => some cs
  | .error e => if e = "Access denied" then some fallback else none

/-- One attempted call of the streaming bulk read: success carries the
stream, a rate limit carries the server-specified `retry_after`. -/
inductive ReadOutcome where
  | ok (stream : String)
  | rateLimited (retry_after : Nat)
deriving DecidableEq, Repr

/-- Function `recursive_read`: `transport i` is the outcome of the `i`-th call
to `copy_client.copyto_stream`.  Returns the list of sleep durations
performed (`time.sleep(err.retry_after)`) and either the returned
stream or the re-raised rate-limit error carrying its `retry_after`. -/
def recursive_read (transport : Nat → ReadOutcome) :
    Nat → Nat → List Nat × Except Nat String
  | callIdx, retry_times =>
    match transport callIdx, retry_times with
    | .ok s, _ => ([], .ok s)
    | .rateLimited ra, 0 => ([], .error ra)
    | .rateLimited ra, n + 1 =>
      let rest := recursive_read transport (callIdx + 1) n
      (ra :: rest.1, rest.2)
termination_by _ retry_times => retry_times

/-! Spec-side characterizations and concrete instances used by the
theorems. -/

/-- How one cell renders in a serialized line: empty for null/missing,
Python string formatting otherwise. -/
def displayVal (v : Val) : String :=
  if isNullVal v then "" else showVal v

/-- The non-geometry fields of a row in column order, each followed by
the pipe delimiter. -/
def nonGeomFieldsStr (row : String → Val) (gcol : Option String) : List String → String
  | [] => ""
  | c :: rest =>
    (if some c = gcol then "" else displayVal (row c) ++ "|") ++
      nonGeomFieldsStr row gcol rest

/-- The value the loop tracks for the geometry column (the last
occurrence wins, `tg` when the column never occurs). -/
def theGeomTracker (row : String → Val) (gcol : Option String) :
    List String → Option Val → Option Val
  | [], tg => tg
  | c :: rest, tg =>
    theGeomTracker row gcol rest (if some c = gcol then some (row c) else tg)

/-- The trailing geometry field built from the tracked geometry value:
`SRID=4326;<WKT>` exactly when the value decodes to a geometry. -/
def geomField (A : DecodeAttempts) (tg : Option Val) : String :=
  match tg with
  | some v =>
    if isNullVal v then ""
    else
      match _decode_geom_pure A v with
      | some g => "SRID=4326;" ++ g.wkt
      | none => ""
  | none => ""

/-- First successful parse attempt in a list, the rest untried. -/
def firstSome (fs : List (Val → Option Geom)) (v : Val) : Option Geom :=
  match fs with
  | [] => none
  | f :: rest =>
    match f v with
    | some g => some g
    | none => firstSome rest v

/-- Modelled from the spec: the attempt order the specification
describes for `_decode_geom` — raw binary well-known-binary first, then
the hex-string variants, then well-known-text.  Defined from the words
of the spec, for comparison with the order the source implements. -/
def _decode_geom_spec_order (A : DecodeAttempts) (v : Val) : Option Geom :=
  firstSome [A.wkb_raw, A.wkb_hex, A.unhex_wkb, A.wkt_] v

/-- The example row of the spec: `id=1`, `name="A"`, `the_geom` a point
at (1,2) (a structured geometry whose WKT is `POINT(1 2)`). -/
def exRow : String → Val := fun c =>
  if c = "id" then .int 1
  else if c = "name" then .str "A"
  else .geom ⟨"Point", "POINT(1 2)"⟩

/-- The lon/lat example row of the spec: `lon=3`, `lat=4`, no geometry
column. -/
def exRowLonLat : String → Val := fun c =>
  if c = "lon" then .int 3
  else if c = "lat" then .int 4
  else .null

/-- A transport that is rate-limited (with `retry_after = 2`) on its
first two calls and succeeds afterwards. -/
def rlTwice : Nat → ReadOutcome := fun i =>
  if i < 2 then .rateLimited 2 else .ok "stream"

/-- A transport that is always rate-limited with `retry_after = 7`. -/
def rlAlways : Nat → ReadOutcome := fun _ => .rateLimited 7

/-- Attempts on which every parse fails. -/
def allNoneAttempts : DecodeAttempts :=
  ⟨fun _ => none, fun _ => none, fun _ => none, fun _ => none, fun _ => none⟩

/-- The geometry a raw-binary WKB parse yields in the order
counterexample. -/
def cxRawGeom : Geom := ⟨"Point", "POINT(0 0)"⟩

/-- The geometry the first (unhexlify-based) parse yields in the order
counterexample. -/
def cxHexGeom : Geom := ⟨"Point", "POINT(9 9)"⟩

/-- Attempts distinguishing the attempt order of the source from the
attempt order of the spec: on input `"X"` the unhexlify-based WKB parse
and the raw-binary WKB parse both succeed, with different results. -/
def cxAttempts : DecodeAttempts :=
  ⟨fun v => if v = .str "X" then some cxHexGeom else none,
   fun _ => none,
   fun _ => none,
   fun v => if v = .str "X" then some cxRawGeom else none,
   fun _ => none⟩

/-- A batch SQL client whose job always fails with a reason. -/
def failingBatch : String → BatchJob := fun _ => ⟨"failed", "boom"⟩

/-- An SQL client whose every call raises a `CartoException`. -/
def failingSend : String → Except String Unit := fun _ => .error "relation does not exist"

/-- The column-definition list of `_create_table_query`: one
`<normalized name> <database type>` entry per normalized column in
dataframe order, comma-joined. -/
def colDefsOf (normalized : List (String × String)) (dtypeOf : String → String) : String :=
  String.intercalate ", " (normalized.map fun p => p.1 ++ " " ++ _dtypes2pg (dtypeOf p.2))

/-- The `SELECT <cols> FROM "<schema>"."<table>"` read query before any
LIMIT clause, excluding `the_geom_webmercator`. -/
def readBaseQuery (table_name schema : String) (table_columns : List TableColumn) : String :=
  "SELECT " ++
    String.intercalate ", "
      ((table_columns.filter fun c => c.name ≠ "the_geom_webmercator").map fun c => c.name) ++
    " FROM \"" ++ schema ++ "\".\"" ++ table_name ++ "\""

/-! Theorems. -/

/-- Without lon/lat mode the per-column loop of `Dataset._rows` builds
exactly the pipe-delimited non-geometry fields in column order and
tracks the last geometry-column value; the lon/lat trackers stay
unset. -/
theorem rowLoop_none_eq (row : String → Val) (gcol : Option String) :
    ∀ (cols : List String) (csv : String) (tg : Option Val),
      rowLoop row none gcol cols (csv, tg, none, none) =
        (csv ++ nonGeomFieldsStr row gcol cols,
         theGeomTracker row gcol cols tg, none, none) := by
  intro cols
  induction cols with
  | nil =>
    intro csv tg
    simp [rowLoop, nonGeomFieldsStr, theGeomTracker]
  | cons c rest ih =>
    intro csv tg
    by_cases hg : some c = gcol
    · simp [rowLoop, nonGeomFieldsStr, theGeomTracker, hg, ih, displayVal]
    · simp [rowLoop, nonGeomFieldsStr, theGeomTracker, hg, ih, displayVal,
        String.append_assoc]

/-- C1: a row serialized by `Dataset._rows` without lon/lat mode
yields the non-geometry column values in column order, pipe-delimited,
nulls as empty fields, followed (when the geometry-column value decodes
to a geometry) by a trailing `SRID=4326;<WKT>` field, terminated by a
single newline and UTF-8 encoded; the row `[id=1, name="A",
the_geom=point at (1,2)]` produces exactly `1|A|SRID=4326;POINT(1 2)\n`,
and in lon/lat mode `lon=3, lat=4` produces a line whose trailing field
is exactly `SRID=4326;POINT(3 4)`. -/
theorem C1_row_serialization :
    (∀ (A : DecodeAttempts) (cols : List String) (row : String → Val)
        (gcol : Option String),
        serializeRow A cols row none gcol =
          nonGeomFieldsStr row gcol cols ++
            geomField A (theGeomTracker row gcol cols none) ++ "\n") ∧
    (∀ A : DecodeAttempts,
        serializeRow A ["id", "name", "the_geom"] exRow none (some "the_geom") =
          "1|A|SRID=4326;POINT(1 2)\n") ∧
    (∀ A : DecodeAttempts,
        serializeRow A ["lon", "lat"] exRowLonLat (some ("lon", "lat")) none =
          "3|4|" ++ "SRID=4326;POINT(3 4)" ++ "\n") ∧
    (∀ A : DecodeAttempts,
        Dataset_rows A [exRow] ["id", "name", "the_geom"] none (some "the_geom") =
          ["1|A|SRID=4326;POINT(1 2)\n".toUTF8]) := by
  refine ⟨?_, fun A => rfl, fun A => rfl, fun A => rfl⟩
  intro A cols row gcol
  simp only [serializeRow, rowLoop_none_eq]
  cases htg : theGeomTracker row gcol cols none with
  | none => simp [geomField]
  | some v =>
    by_cases hn : isNullVal v
    · simp [geomField, hn]
    · cases hd : _decode_geom_pure A v with
      | none => simp [geomField, hn, hd]
      | some g => simp [geomField, hn, hd, String.append_assoc]

/-- C2: for a `Dataset` with a bound source dataframe, `upload`
raises the "already exists" `NameError` naming the table exactly when
the remote table exists and the policy is `fail`, and then the only
remote call so far is the existence probe (no bulk-copy call); for any
other policy on an existing table no conflict error is raised and,
when table creation succeeds, the row stream proceeds. -/
theorem C2_upload_conflict (te : Bool) (job : BatchJob) (p t : String) :
    ((uploadSim true te job p t).2 = .error (.nameError (alreadyExistsMsg t)) ↔
      te = true ∧ p = "fail") ∧
    (te = true → p = "fail" →
      (uploadSim true te job p t).1 = [.probeExists] ∧
        UAction.copyFrom ∉ (uploadSim true te job p t).1) ∧
    (te = true → p ≠ "fail" → job.status = "done" →
      (uploadSim true te job p t).2 = .ok () ∧
        UAction.copyFrom ∈ (uploadSim true te job p t).1) := by
  refine ⟨?_, ?_, ?_⟩
  · cases te with
    | false =>
      by_cases hs : job.status = "done" <;>
        simp [uploadSim, createResult, hs]
    | true =>
      by_cases hp : p = "fail"
      · simp [uploadSim, hp]
      · by_cases hr : p = "replace" <;>
          by_cases hs : job.status = "done" <;>
            simp [uploadSim, createResult, hp, hr, hs]
  · intro hte hp
    simp [uploadSim, hte, hp]
  · intro hte hp hs
    by_cases hr : p = "replace" <;>
      simp [uploadSim, createResult, hte, hp, hr, hs]

/-- C2 witness: on an existing table with policy `fail`, `upload`
raises the "already exists" `NameError` for table `mytable` with only
the probe performed. -/
theorem C2_upload_conflict_witness :
    (uploadSim true true ⟨"done", ""⟩ "fail" "mytable").2 =
        .error (.nameError (alreadyExistsMsg "mytable")) ∧
      (uploadSim true true ⟨"done", ""⟩ "fail" "mytable").1 = [.probeExists] :=
  ⟨(C2_upload_conflict true ⟨"done", ""⟩ "fail" "mytable").1.mpr ⟨rfl, rfl⟩,
   ((C2_upload_conflict true ⟨"done", ""⟩ "fail" "mytable").2.1 rfl rfl).1⟩

/-- C3: `recursive_read` returns the result when the streaming read
succeeds; on a rate limit with attempts remaining it sleeps exactly the
server-specified `retry_after`, decrements the remaining attempts and
retries; with zero attempts remaining it re-raises the original
rate-limit error with no sleep; and with a transport rate-limited with
`retry_after = 2` exactly twice then succeeding and `retry_times = 3`
it sleeps twice and returns the eventual success. -/
theorem C3_recursive_read :
    (∀ (transport : Nat → ReadOutcome) (i rt : Nat) (s : String),
        transport i = .ok s → recursive_read transport i rt = ([], .ok s)) ∧
    (∀ (transport : Nat → ReadOutcome) (i n ra : Nat),
        transport i = .rateLimited ra →
          recursive_read transport i (n + 1) =
            (ra :: (recursive_read transport (i + 1) n).1,
             (recursive_read transport (i + 1) n).2)) ∧
    (∀ (transport : Nat → ReadOutcome) (i ra : Nat),
        transport i = .rateLimited ra →
          recursive_read transport i 0 = ([], .error ra)) ∧
    recursive_read rlTwice 0 3 = ([2, 2], .ok "stream") := by
  refine ⟨?_, ?_, ?_, by simp [recursive_read, rlTwice]⟩
  · intro transport i rt s h
    cases rt <;> simp [recursive_read, h]
  · intro transport i n ra h
    simp [recursive_read, h]
  · intro transport i ra h
    simp [recursive_read, h]

/-- C3 witness: a transport that is always rate-limited with
`retry_after = 7` and zero remaining attempts re-raises at once with no
sleep. -/
theorem C3_recursive_read_witness :
    recursive_read rlAlways 5 0 = ([], .error 7) :=
  C3_recursive_read.2.2.1 rlAlways 5 7 rfl

/-- C4: `Dataset.exists` issues the `EXPLAIN SELECT * FROM
"<table>"` probe through the non-batch SQL client, returns `true`
exactly when the probe succeeds, and on any `CartoException` — whatever
its cause — returns `false` after debug-logging the error, never
raising. -/
theorem C4_exists_probe (send : String → Except String Unit) (t : String) :
    (existsQuery t = "EXPLAIN SELECT * FROM \"" ++ t ++ "\"") ∧
    ((Dataset_exists send t).1 = true ↔ (send (existsQuery t)).isOk) ∧
    (∀ e, send (existsQuery t) = .error e →
      Dataset_exists send t = (false, some e)) := by
  refine ⟨rfl, ?_, ?_⟩
  · cases h : send (existsQuery t) <;>
      simp [Dataset_exists, h, Except.isOk, Except.toBool]
  · intro e h
    simp [Dataset_exists, h]

/-- C4 witness: a client whose every call raises yields `false`
with the error logged. -/
theorem C4_exists_probe_witness :
    Dataset_exists failingSend "tbl" = (false, some "relation does not exist") :=
  (C4_exists_probe failingSend "tbl").2.2 "relation does not exist" rfl

/-- The nested try/except chain of `_decode_geom` is the first success
of the five attempts in source order. -/
theorem decodeChain_eq_firstSome (A : DecodeAttempts) (v : Val) :
    decodeChain A v =
      firstSome [A.unhex_wkb, A.unhex_wkb_hex, A.wkb_hex, A.wkb_raw, A.wkt_] v := by
  cases h1 : A.unhex_wkb v <;> cases h2 : A.unhex_wkb_hex v <;>
    cases h3 : A.wkb_hex v <;> cases h4 : A.wkb_raw v <;>
      cases h5 : A.wkt_ v <;>
        simp [decodeChain, firstSome, h1, h2, h3, h4, h5]

/-- C5: geometry decode returns the input unchanged when it
already carries geometry-type metadata; with shapely present it returns
null for null/empty input and for any non-structured input on which
every decode attempt fails, and never raises; with shapely missing it
raises an `ImportError` whose message names `shapely`. -/
theorem C5_decode_errors (A : DecodeAttempts) (msg : String) :
    (∀ (avail : Bool) (g : Geom), _decode_geom avail msg A (.geom g) = .ok (some g)) ∧
    (_decode_geom true msg A .null = .ok none ∧
      _decode_geom true msg A (.str "") = .ok none) ∧
    (∀ v : Val, (∀ g, v ≠ .geom g) →
        A.unhex_wkb v = none → A.unhex_wkb_hex v = none → A.wkb_hex v = none →
        A.wkb_raw v = none → A.wkt_ v = none →
        _decode_geom true msg A v = .ok none) ∧
    (∀ v : Val, (_decode_geom true msg A v).isOk = true) ∧
    (∀ v : Val, (∀ g, v ≠ .geom g) →
        _decode_geom false msg A v = .error (.importError (shapelyImportMsg msg))) := by
  refine ⟨?_, ⟨rfl, rfl⟩, ?_, ?_, ?_⟩
  · intro avail g
    cases avail <;> rfl
  · intro v hg h1 h2 h3 h4 h5
    cases v with
    | geom g => exact absurd rfl (hg g)
    | null => rfl
    | str s => simp [_decode_geom, _decode_geom_inner, decodeChain, h1, h2, h3, h4, h5]
    | int n => simp [_decode_geom, _decode_geom_inner, decodeChain, h1, h2, h3, h4, h5]
  · intro v
    cases v <;> rfl
  · intro v hg
    cases v with
    | geom g => exact absurd rfl (hg g)
    | null => rfl
    | str s => rfl
    | int n => rfl

/-- C5 witness: with every attempt failing, a malformed string
decodes to null without raising; without shapely, the same input raises
the missing-dependency error naming shapely. -/
theorem C5_decode_errors_witness :
    _decode_geom true "No module named shapely" allNoneAttempts (.str "abc") = .ok none ∧
    _decode_geom false "No module named shapely" allNoneAttempts (.str "abc") =
      .error (.importError (shapelyImportMsg "No module named shapely")) :=
  ⟨(C5_decode_errors allNoneAttempts "No module named shapely").2.2.1 (.str "abc")
      (by intro g h; cases h) rfl rfl rfl rfl rfl,
   (C5_decode_errors allNoneAttempts "No module named shapely").2.2.2.2 (.str "abc")
      (by intro g h; cases h)⟩

/-- C6 counterexample: the claim says the raw-binary
well-known-binary interpretation is attempted first, but the source
tries the unhexlify-based interpretations first: on input `"X"`, with
attempts on which both the raw-binary parse and the first
unhexlify-based parse succeed with different geometries, the source
returns the unhexlify result while the claimed order returns the
raw-binary result. -/
theorem C6_counterexample :
    _decode_geom true "m" cxAttempts (.str "X") = .ok (some cxHexGeom) ∧
    _decode_geom_spec_order cxAttempts (.str "X") = some cxRawGeom ∧
    cxHexGeom ≠ cxRawGeom := by
  refine ⟨rfl, rfl, by decide⟩

/-- C6 (amended): for every non-null, non-structured, truthy input,
geometry decode attempts the five interpretations in source order —
binary WKB of the unhexlified input, hex WKB of the unhexlified input,
hex-string WKB of the raw input, raw binary WKB, then well-known-text —
stopping at the first success. -/
theorem C6_decode_order (A : DecodeAttempts) (msg : String) (v : Val) :
    (∀ g, v ≠ .geom g) → pyTruthy v = true →
      _decode_geom true msg A v =
        .ok (firstSome [A.unhex_wkb, A.unhex_wkb_hex, A.wkb_hex, A.wkb_raw, A.wkt_] v) := by
  intro hg ht
  cases v with
  | geom g => exact absurd rfl (hg g)
  | null => simp [pyTruthy] at ht
  | str s => simp [_decode_geom, _decode_geom_inner, ht, decodeChain_eq_firstSome]
  | int n => simp [_decode_geom, _decode_geom_inner, ht, decodeChain_eq_firstSome]

/-- C6 witness: the amended order at a concrete truthy input. -/
theorem C6_decode_order_witness :
    _decode_geom true "m" allNoneAttempts (.str "x") =
      .ok (firstSome [allNoneAttempts.unhex_wkb, allNoneAttempts.unhex_wkb_hex,
        allNoneAttempts.wkb_hex, allNoneAttempts.wkb_raw, allNoneAttempts.wkt_] (.str "x")) :=
  C6_decode_order allNoneAttempts "m" (.str "x") (by intro g h; cases h) rfl

/-- C7: `_create_table_query` builds
`CREATE TABLE <table> (<col defs>[, the_geom geometry(<type>, 4326)])`
with one `<normalized name> <db type>` definition per normalized column
in dataframe order; the dtype mapping is the fixed table with `text`
for anything unrecognized; lon/lat mode forces geometry type `Point`
regardless of any detected geometry column. -/
theorem C7_create_table_query (t : String) (normalized : List (String × String))
    (dtypeOf : String → String) (det : Option String) :
    (∀ ll : String × String,
        _create_table_query t normalized dtypeOf det (some ll) =
          "CREATE TABLE " ++ t ++ " (" ++
            (colDefsOf normalized dtypeOf ++ ", the_geom geometry(" ++ "Point" ++ ", 4326)") ++
            ")") ∧
    (∀ gt : String,
        _create_table_query t normalized dtypeOf (some gt) none =
          "CREATE TABLE " ++ t ++ " (" ++
            (colDefsOf normalized dtypeOf ++ ", the_geom geometry(" ++ gt ++ ", 4326)") ++
            ")") ∧
    (_create_table_query t normalized dtypeOf none none =
        "CREATE TABLE " ++ t ++ " (" ++ colDefsOf normalized dtypeOf ++ ")") ∧
    (_dtypes2pg "float64" = "numeric" ∧ _dtypes2pg "float32" = "numeric" ∧
      _dtypes2pg "int64" = "integer" ∧ _dtypes2pg "int32" = "integer" ∧
      _dtypes2pg "object" = "text" ∧ _dtypes2pg "bool" = "boolean" ∧
      _dtypes2pg "datetime64[ns]" = "timestamp" ∧
      _dtypes2pg "datetime64[ns, UTC]" = "timestamp") ∧
    (∀ d : String, d ≠ "float64" → d ≠ "int64" → d ≠ "float32" → d ≠ "int32" →
      d ≠ "object" → d ≠ "bool" → d ≠ "datetime64[ns]" → d ≠ "datetime64[ns, UTC]" →
      _dtypes2pg d = "text") := by
  refine ⟨fun ll => rfl, fun gt => rfl, rfl,
    ⟨rfl, rfl, rfl, rfl, rfl, rfl, rfl, rfl⟩, ?_⟩
  intro d h1 h2 h3 h4 h5 h6 h7 h8
  simp [_dtypes2pg, h1, h2, h3, h4, h5, h6, h7, h8]

/-- C7 witness: the unmapped dtype case and the lon/lat `Point`
forcing at concrete inputs. -/
theorem C7_create_table_query_witness :
    _dtypes2pg "category" = "text" ∧
    _create_table_query "tbl" [("a", "a")] (fun _ => "int64") (some "Polygon")
        (some ("lon", "lat")) =
      "CREATE TABLE " ++ "tbl" ++ " (" ++
        (colDefsOf [("a", "a")] (fun _ => "int64") ++ ", the_geom geometry(" ++ "Point" ++
          ", 4326)") ++ ")" :=
  ⟨(C7_create_table_query "x" [] (fun _ => "") none).2.2.2.2 "category"
      (by decide) (by decide) (by decide) (by decide) (by decide) (by decide)
      (by decide) (by decide),
   (C7_create_table_query "tbl" [("a", "a")] (fun _ => "int64") (some "Polygon")).1
      ("lon", "lat")⟩

/-- C8: `_create_table` submits exactly one batch (a failed batch
is never resubmitted); it raises the `CartoException` carrying the
service-provided failure reason exactly when the job status is not
`done`, and raises nothing when it is. -/
theorem C8_batch_status (batch : String → BatchJob) (sql : String) :
    ((_create_table batch sql).1 = [sql]) ∧
    ((_create_table batch sql).2 = .ok () ↔ (batch sql).status = "done") ∧
    ((batch sql).status ≠ "done" →
      (_create_table batch sql).2 =
        .error (.cartoError ("Cannot create table: " ++ (batch sql).failed_reason ++ "."))) := by
  refine ⟨rfl, ?_, ?_⟩
  · by_cases hs : (batch sql).status = "done" <;> simp [_create_table, createResult, hs]
  · intro hs
    simp [_create_table, createResult, hs]

/-- C8 witness: a failing batch surfaces its reason. -/
theorem C8_batch_status_witness :
    (_create_table failingBatch "BEGIN; COMMIT;").2 =
      .error (.cartoError "Cannot create table: boom.") :=
  (C8_batch_status failingBatch "BEGIN; COMMIT;").2.2 (by decide)

/-- C9 counterexample: the claim says an invalid limit raises
before any query is executed, but `download` has already executed the
column-introspection query when `_get_read_query` raises: at
`limit = -1` the outcome is the fatal `ValueError` while the trace of
executed remote calls is non-empty. -/
theorem C9_counterexample :
    (downloadSim "t" "public" [⟨"a", "text"⟩] (some (.intVal (-1)))).2 =
        .error (.valueError "`limit` parameter must an integer >= 0") ∧
    (downloadSim "t" "public" [⟨"a", "text"⟩] (some (.intVal (-1)))).1 =
        [.introspectColumns] ∧
    ([DAction.introspectColumns] : List DAction) ≠ [] :=
  ⟨rfl, rfl, by simp⟩

/-- C9 (amended): `download` appends no LIMIT clause when the limit
is absent and ` LIMIT <limit>` for a non-negative integer limit; a
negative or non-integer limit raises a fatal `ValueError` before the
read query is executed — no fetch call is made — although the
column-introspection query has already run. -/
theorem C9_read_query_limit (t sch : String) (tcs : List TableColumn) :
    (_get_read_query t sch tcs none = .ok (readBaseQuery t sch tcs)) ∧
    (∀ n : Int, 0 ≤ n →
        _get_read_query t sch tcs (some (.intVal n)) =
          .ok (readBaseQuery t sch tcs ++ " LIMIT " ++ toString n)) ∧
    (∀ n : Int, n < 0 →
        _get_read_query t sch tcs (some (.intVal n)) =
          .error (.valueError "`limit` parameter must an integer >= 0")) ∧
    (_get_read_query t sch tcs (some .nonInt) =
        .error (.valueError "`limit` parameter must an integer >= 0")) ∧
    (∀ (l : Option LimitArg) (e : PyErr),
        (downloadSim t sch tcs l).2 = .error e →
          ∀ q, DAction.fetch q ∉ (downloadSim t sch tcs l).1) := by
  refine ⟨rfl, ?_, ?_, rfl, ?_⟩
  · intro n hn
    simp [_get_read_query, readBaseQuery, ge_iff_le, hn]
  · intro n hn
    have h : ¬n ≥ 0 := by omega
    simp [_get_read_query, h]
  · intro l e he q
    cases hq : _get_read_query t sch tcs l with
    | ok q' => simp [downloadSim, hq] at he
    | error e' => simp [downloadSim, hq]

/-- C9 witness: a negative limit raises the fatal input error. -/
theorem C9_read_query_limit_witness :
    _get_read_query "tbl" "public" [⟨"a", "text"⟩] (some (.intVal (-5))) =
      .error (.valueError "`limit` parameter must an integer >= 0") :=
  (C9_read_query_limit "tbl" "public" [⟨"a", "text"⟩]).2.2.1 (-5) (by decide)

/-- C10: when the catalog query of `get_table_columns` raises a
`CartoException` whose message is not exactly `Access denied`, the
error is swallowed and the function returns nothing at all; only the
exact `Access denied` message triggers the zero-row-probe fallback. -/
theorem C10_table_columns_swallow (fallback : List TableColumn) :
    (∀ e : String, e ≠ "Access denied" →
        get_table_columns (.error e) fallback = none) ∧
    (get_table_columns (.error "Access denied") fallback = some fallback) ∧
    (∀ cs, get_table_columns (.ok cs) fallback = some cs) := by
  refine ⟨?_, rfl, fun cs => rfl⟩
  intro e he
  simp [get_table_columns, he]

/-- C10 witness: a permission error other than `Access denied` is
swallowed into `none`. -/
theorem C10_table_columns_swallow_witness :
    get_table_columns (.error "permission denied for relation t")
        ([] : List TableColumn) = none :=
  (C10_table_columns_swallow []).1 "permission denied for relation t" (by decide)

end Cartoframes
